import Mathlib

/-!
Shallow embedding of the pipeline-topology construction in
`src/pipeline-stack+(1).ts` (class `PipelineStack`), together with the
spec-level components (Artifact Registry, Action Binder, Notification
Attachment) whose implementations live outside `src/`.

Cloud-resource provisioning (buckets, roles, VPC lookup) is out of the
spec's scope and is represented only where a claim needs it: opaque
collaborator values (parameter-store lookups, bucket URLs, ARNs) are
passed in as abstract strings.
-/

namespace PipelineStack

/-- The environment descriptor consumed by the stack.  The TypeScript type
`CodebuildOptions` lives in `./types`, which is not under `src/`; the fields
below are exactly those the topology-construction code reads (`ENV`,
`branch`, `testStage`, `productionStage`; the VPC/subnet fields are
provisioning-only and out of the spec's scope). -/
structure CodebuildOptions where
  ENV : String
  branch : String
  testStage : String
  productionStage : String
deriving DecidableEq, Repr

/-- Modelled from the spec: `EnvironmentDescriptor.isProduction`.  The
descriptor type is not under `src/`; the source keys every
environment-conditional decision on the low-ceremony-tier test
`environment.ENV !== 'dev'` (line 167), which the spec declares equivalent
to `isProduction` ("included iff `env.isProduction` or, more generally, iff
the environment is not the designated low-ceremony tier"). -/
def isProduction (env : CodebuildOptions) : Bool :=
  env.ENV ≠ "dev"

/-- A stage declaration as passed to `codePipeline.addStage`: the stage name
and the optional `placement.justAfter` reference, recorded by the (unique)
name of the referenced stage object. -/
structure StageDecl where
  stageName : String
  justAfter : Option String
deriving DecidableEq, Repr

/-- Line 155: `codePipeline.addStage({ stageName: 'Source' })`. -/
def sourceStage : StageDecl :=
  { stageName := "Source", justAfter := none }

/-- Line 159: `addStage({ stageName: 'Build', placement: { justAfter: sourceStage } })`. -/
def buildStage : StageDecl :=
  { stageName := "Build", justAfter := some sourceStage.stageName }

/-- Lines 166-175: `approveStage` is assigned only under
`environment.ENV !== 'dev'`, with `placement.justAfter = buildStage`;
otherwise it stays `undefined` (here `none`). -/
def approveStage (env : CodebuildOptions) : Option StageDecl :=
  if env.ENV ≠ "dev" then
    some { stageName := "Approval", justAfter := some buildStage.stageName }
  else
    none

/-- Lines 178-183: `addStage({ stageName: 'Deploy', placement: { justAfter:
approveStage || buildStage } })` — the JavaScript `||` falls back to
`buildStage` when `approveStage` is `undefined`. -/
def deployStage (env : CodebuildOptions) : StageDecl :=
  { stageName := "Deploy",
    justAfter := some ((approveStage env).getD buildStage).stageName }

/-- The ordered stage list produced by the four `addStage` calls (each new
stage is placed just after the previous materialized one, so list order is
construction order). -/
def stagesOf (env : CodebuildOptions) : List StageDecl :=
  [sourceStage, buildStage] ++ (approveStage env).toList ++ [deployStage env]

/-- `cdk.SecretValue.secretsManager(secretId)`: a deploy-time dynamic
reference into the secrets collaborator. -/
inductive SecretValue where
  | secretsManager (secretId : String)
deriving DecidableEq, Repr

/-- `SecretValue.toString()` as the source uses it (lines 222, 302): the
token renders to the CloudFormation dynamic-reference text, which the
deployment engine replaces by the resolved plaintext secret in the
surrounding string context.  So a configuration value equal to this string
is one into which the resolved secret is substituted. -/
def SecretValue.toStr : SecretValue → String
  | .secretsManager secretId =>
      "\x7b\x7bresolve:secretsmanager:" ++ secretId ++ ":SecretString:::\x7d\x7d"

/-- Line 185: `const oauthSecret = cdk.SecretValue.secretsManager('bridge-githubAccessToken')`. -/
def oauthSecret : SecretValue :=
  .secretsManager "bridge-githubAccessToken"

/-- `cpaction.GitHubTrigger`. -/
inductive GitHubTrigger where
  | NONE
  | POLL
  | WEBHOOK
deriving DecidableEq, Repr

/-- The properties of `cpaction.GitHubSourceAction` that the source sets
(lines 193-201).  `output` is recorded by artifact id. -/
structure GitHubSourceActionProps where
  actionName : String
  owner : String
  repo : String
  oauthToken : SecretValue
  branch : String
  trigger : GitHubTrigger
  output : String
deriving DecidableEq, Repr

/-- Line 192: `new codepipeline.Artifact('sourceOutput')` — its id. -/
def sourceOutput : String := "sourceOutput"

/-- Line 252: `new codepipeline.Artifact('buildOutput')` — its id. -/
def buildOutput : String := "buildOutput"

/-- Lines 193-201: the GitHub source action. -/
def sourceAction (env : CodebuildOptions) : GitHubSourceActionProps :=
  { actionName := "bridge-api-codebuild-action-" ++ env.ENV ++ "-v2"
    owner := "CoolBitX-Technology"
    repo := "sygna-bridge-api"
    oauthToken := oauthSecret
    branch := env.branch
    trigger := .WEBHOOK
    output := sourceOutput }

/-- `codebuild.BuildEnvironmentVariableType`; when the `type` field is
omitted (as in the source, where the `SECRETS_MANAGER` choice is commented
out) CDK defaults to `PLAINTEXT`. -/
inductive BuildEnvironmentVariableType where
  | PLAINTEXT
  | PARAMETER_STORE
  | SECRETS_MANAGER
deriving DecidableEq, Repr

/-- One entry of a CodeBuild project's `environmentVariables` map. -/
structure BuildEnvironmentVariable where
  type : BuildEnvironmentVariableType
  value : String
deriving DecidableEq, Repr

/-- Lines 216-240: the `environmentVariables` of the build project
`codeBuildProject`.  `reportBucketUrl` stands for
`reportBucket.bucketWebsiteUrl` and `slackHookUrlValue` for the
parameter-store lookup `slackHookUrl.stringValue`, both opaque collaborator
values.  Every entry omits `type`, so all are `PLAINTEXT`; in particular
`GITHUB_OAUTH_TOKEN` holds `oauthSecret.toString()` (line 222) with the
`SECRETS_MANAGER` type commented out (line 221). -/
def codeBuildProjectEnvVars (env : CodebuildOptions)
    (reportBucketUrl slackHookUrlValue : String) :
    List (String × BuildEnvironmentVariable) :=
  [("ENV", { type := .PLAINTEXT, value := env.ENV }),
   ("GITHUB_OAUTH_TOKEN", { type := .PLAINTEXT, value := oauthSecret.toStr }),
   ("TEST_STAGE", { type := .PLAINTEXT, value := env.testStage }),
   ("PROD_STAGE", { type := .PLAINTEXT, value := env.productionStage }),
   ("BRANCH", { type := .PLAINTEXT, value := env.branch }),
   ("S3_REPORT_BUCKET_URL", { type := .PLAINTEXT, value := reportBucketUrl }),
   ("SLACK_HOOK_URL", { type := .PLAINTEXT, value := slackHookUrlValue })]

/-- Lines 296-320: the `environmentVariables` of the deploy project
`codeBuildDeploy` — textually the same seven entries as the build project,
again with `GITHUB_OAUTH_TOKEN` as a default-typed (`PLAINTEXT`) variable
holding `oauthSecret.toString()` (line 302). -/
def codeBuildDeployEnvVars (env : CodebuildOptions)
    (reportBucketUrl slackHookUrlValue : String) :
    List (String × BuildEnvironmentVariable) :=
  [("ENV", { type := .PLAINTEXT, value := env.ENV }),
   ("GITHUB_OAUTH_TOKEN", { type := .PLAINTEXT, value := oauthSecret.toStr }),
   ("TEST_STAGE", { type := .PLAINTEXT, value := env.testStage }),
   ("PROD_STAGE", { type := .PLAINTEXT, value := env.productionStage }),
   ("BRANCH", { type := .PLAINTEXT, value := env.branch }),
   ("S3_REPORT_BUCKET_URL", { type := .PLAINTEXT, value := reportBucketUrl }),
   ("SLACK_HOOK_URL", { type := .PLAINTEXT, value := slackHookUrlValue })]

/-- The properties of `cpaction.CodeBuildAction` the source sets: input and
output artifact ids (`outputs` is empty when the property is omitted, as for
the deploy action). -/
structure CodeBuildActionProps where
  actionName : String
  input : String
  outputs : List String
deriving DecidableEq, Repr

/-- Lines 253-258: the build action consumes `sourceOutput` and lists
`buildOutput` as its single output. -/
def buildAction : CodeBuildActionProps :=
  { actionName := "Build", input := sourceOutput, outputs := [buildOutput] }

/-- Lines 324-328: the deploy action consumes `buildOutput` and declares no
outputs. -/
def deployAction : CodeBuildActionProps :=
  { actionName := "Deploy", input := buildOutput, outputs := [] }

/-- The four semantic action kinds of the spec's `ActionSpec`. -/
inductive ActionKind where
  | Source
  | Build
  | Approval
  | Deploy
deriving DecidableEq, Repr

/-- The spec's `ActionSpec` view of a bound action: name, kind, and input /
output artifact ids. -/
structure ActionSpec where
  name : String
  kind : ActionKind
  inputs : List String
  outputs : List String
deriving DecidableEq, Repr

/-- The `ActionSpec` view of the GitHub source action (kind `Source`: no
inputs, one produced artifact). -/
def sourceActionSpec (env : CodebuildOptions) : ActionSpec :=
  { name := (sourceAction env).actionName
    kind := .Source
    inputs := []
    outputs := [(sourceAction env).output] }

/-- The `ActionSpec` view of the build action. -/
def buildActionSpec : ActionSpec :=
  { name := buildAction.actionName
    kind := .Build
    inputs := [buildAction.input]
    outputs := buildAction.outputs }

/-- Lines 274-279: the `ManualApprovalAction` (`actionName: 'ApprovalOrDeny'`);
no artifact inputs or outputs. -/
def approvalActionSpec : ActionSpec :=
  { name := "ApprovalOrDeny", kind := .Approval, inputs := [], outputs := [] }

/-- The `ActionSpec` view of the deploy action. -/
def deployActionSpec : ActionSpec :=
  { name := deployAction.actionName
    kind := .Deploy
    inputs := [deployAction.input]
    outputs := deployAction.outputs }

/-- A stage together with the actions bound to it. -/
structure BoundStage where
  decl : StageDecl
  actions : List ActionSpec
deriving DecidableEq, Repr

/-- `stage.addAction(action)` on the stage object named `name` (stage names
are unique in the constructed topology, so identifying a stage by its name
is faithful to identifying it by reference). -/
def addActionTo (stages : List BoundStage) (name : String) (a : ActionSpec) :
    List BoundStage :=
  stages.map fun s =>
    if s.decl.stageName = name then { s with actions := s.actions ++ [a] } else s

/-- The full constructed topology: the four `addStage` calls followed by the
`addAction` calls in source order — `sourceStage.addAction` (line 203),
`buildStage.addAction` (line 260), then under `environment.ENV !== 'dev'`
the optional-chained `approveStage?.addAction(approvalAction)` (lines
262-282), then `deployStage.addAction` (line 329). -/
def pipeline (env : CodebuildOptions) : List BoundStage :=
  let stages0 : List BoundStage :=
    (stagesOf env).map fun d => { decl := d, actions := [] }
  let stages1 := addActionTo stages0 sourceStage.stageName (sourceActionSpec env)
  let stages2 := addActionTo stages1 buildStage.stageName buildActionSpec
  let stages3 :=
    if env.ENV ≠ "dev" then
      match approveStage env with
      | some s => addActionTo stages2 s.stageName approvalActionSpec
      | none => stages2
    else stages2
  addActionTo stages3 (deployStage env).stageName deployActionSpec

/-- The ordered stage-name sequence of the constructed topology. -/
def stageNames (env : CodebuildOptions) : List String :=
  (pipeline env).map fun s => s.decl.stageName

end PipelineStack

namespace PipelineStack

/-- C1: for every environment descriptor that is production (equivalently,
not the designated low-ceremony tier `dev`), the constructed topology is
exactly the ordered stage sequence `[Source, Build, Approval, Deploy]`;
otherwise exactly `[Source, Build, Deploy]`; and the `Approval` stage is
present if and only if the environment is production, i.e. iff
`ENV ≠ "dev"`. -/
theorem approval_stage_iff_production (env : CodebuildOptions) :
    stageNames env =
      (if isProduction env then ["Source", "Build", "Approval", "Deploy"]
       else ["Source", "Build", "Deploy"]) ∧
    ("Approval" ∈ stageNames env ↔ isProduction env = true) ∧
    (isProduction env = true ↔ env.ENV ≠ "dev") := by
  by_cases h : env.ENV = "dev" <;>
    simp [stageNames, pipeline, stagesOf, approveStage, deployStage, addActionTo,
      isProduction, sourceStage, buildStage, h]

/-- C2: the Deploy stage's `placement.justAfter` reference resolves to the
Approval stage when Approval is present, and to the Build stage otherwise;
it never resolves to Source. -/
theorem deploy_placement_tie_break (env : CodebuildOptions) :
    ((approveStage env).isSome →
      (deployStage env).justAfter = some "Approval") ∧
    ((approveStage env).isNone →
      (deployStage env).justAfter = some "Build") ∧
    (deployStage env).justAfter ≠ some "Source" := by
  by_cases h : env.ENV = "dev" <;>
    simp [deployStage, approveStage, buildStage, h]

/-- A concrete production-tier environment, as in the spec's scenario with
name `prod`, isProduction true and branch `main`. -/
def prodEnv : CodebuildOptions :=
  { ENV := "prod", branch := "main", testStage := "sit", productionStage := "prod" }

/-- A concrete low-ceremony environment, as in the spec's scenario with
name `dev`, isProduction false and branch `develop`. -/
def devEnv : CodebuildOptions :=
  { ENV := "dev", branch := "develop", testStage := "sit", productionStage := "prod" }

/-- Witness for C2 at the two concrete environments of the spec's scenarios:
`prod` (Approval present, Deploy placed after Approval) and `dev` (Approval
absent, Deploy placed after Build). -/
theorem deploy_placement_tie_break_witness :
    (deployStage prodEnv).justAfter = some "Approval" ∧
    (deployStage devEnv).justAfter = some "Build" :=
  ⟨(deploy_placement_tie_break prodEnv).1 (by decide),
   (deploy_placement_tie_break devEnv).2.1 (by decide)⟩

/-- C3: the Build action consumes the Source action's single output
artifact and produces exactly the one Build output artifact; the Deploy
action consumes the Build output artifact and declares no outputs; and the
topology's terminal stage carries exactly the Deploy-kind action — so
Deploy, and no other kind, is the pipeline's terminal node. -/
theorem artifact_flow_and_terminal (env : CodebuildOptions) :
    buildAction.input = (sourceAction env).output ∧
    buildAction.outputs = [buildOutput] ∧
    deployAction.input = buildOutput ∧
    deployAction.outputs = [] ∧
    (pipeline env).getLast? =
      some { decl := deployStage env, actions := [deployActionSpec] } ∧
    deployActionSpec.kind = ActionKind.Deploy := by
  by_cases h : env.ENV = "dev" <;>
    simp [pipeline, stagesOf, approveStage, deployStage, addActionTo,
      sourceStage, buildStage, buildAction, deployAction, sourceAction,
      sourceOutput, buildOutput, deployActionSpec, h]

/-- C9: the Approval stage is present in the constructed topology exactly
when the approval action is, both guarded by the same environment
condition: the stages named `Approval` are exactly the stages carrying an
Approval-kind action, namely one stage holding exactly the approval action
when `ENV ≠ "dev"` and none otherwise — never an empty Approval stage,
never an orphan approval action. -/
theorem approval_stage_action_invariant (env : CodebuildOptions) :
    ((pipeline env).filter fun s => s.decl.stageName == "Approval") =
      (if env.ENV ≠ "dev" then
        [{ decl := { stageName := "Approval", justAfter := some "Build" },
           actions := [approvalActionSpec] }]
       else []) ∧
    ((pipeline env).filter fun s =>
        s.actions.any fun a => a.kind == ActionKind.Approval) =
      ((pipeline env).filter fun s => s.decl.stageName == "Approval") := by
  by_cases h : env.ENV = "dev" <;>
    simp [pipeline, stagesOf, approveStage, deployStage, addActionTo,
      sourceStage, buildStage, sourceActionSpec, buildActionSpec,
      approvalActionSpec, deployActionSpec, sourceAction, h]

/-- C10: the Source action's repository owner and name are the fixed
constants `CoolBitX-Technology` and `sygna-bridge-api` for every
environment; of the source-fetch parameters (owner, repo, credential,
trigger, output), only the branch varies with the environment, and it
equals the descriptor's branch. -/
theorem source_action_constants (e1 e2 : CodebuildOptions) :
    (sourceAction e1).owner = "CoolBitX-Technology" ∧
    (sourceAction e1).repo = "sygna-bridge-api" ∧
    (sourceAction e1).branch = e1.branch ∧
    (sourceAction e1).owner = (sourceAction e2).owner ∧
    (sourceAction e1).repo = (sourceAction e2).repo ∧
    (sourceAction e1).oauthToken = (sourceAction e2).oauthToken ∧
    (sourceAction e1).trigger = (sourceAction e2).trigger ∧
    (sourceAction e1).output = (sourceAction e2).output := by
  simp [sourceAction]

/-- C4 (failing evaluation): in both the build and the deploy CodeBuild
projects, the `GITHUB_OAUTH_TOKEN` environment variable is a default-typed
(`PLAINTEXT`) variable whose value is the rendered resolution of the OAuth
secret — the resolved token is persisted into both environment-variable
sets, and it is not passed as a `SECRETS_MANAGER`-typed reference.
Evaluated at the concrete `dev` environment with opaque collaborator
strings for the report-bucket URL and Slack hook URL. -/
theorem oauth_token_inlined_in_env_vars :
    (codeBuildProjectEnvVars devEnv "reportUrl" "slackUrl").lookup
        "GITHUB_OAUTH_TOKEN" =
      some { type := BuildEnvironmentVariableType.PLAINTEXT,
             value := SecretValue.toStr oauthSecret } ∧
    (codeBuildDeployEnvVars devEnv "reportUrl" "slackUrl").lookup
        "GITHUB_OAUTH_TOKEN" =
      some { type := BuildEnvironmentVariableType.PLAINTEXT,
             value := SecretValue.toStr oauthSecret } ∧
    ∀ v ∈ (codeBuildProjectEnvVars devEnv "reportUrl" "slackUrl").map
        Prod.snd,
      v.type ≠ BuildEnvironmentVariableType.SECRETS_MANAGER := by
  refine ⟨by decide, by decide, ?_⟩
  decide

/-- The properties of `codestarnotification.CfnNotificationRule` the source
sets (lines 335-353); `targets` entries are (targetType, targetAddress)
pairs. -/
structure CfnNotificationRuleProps where
  detailType : String
  eventTypeIds : List String
  name : String
  resource : String
  targets : List (String × String)
deriving DecidableEq, Repr

/-- The spec's pipeline-level lifecycle events. -/
inductive LifecycleEvent where
  | Succeeded
  | Failed
deriving DecidableEq, Repr

/-- The whole-pipeline-granularity lifecycle event denoted by a CodeStar
event-type id, if any: the `codepipeline-pipeline-pipeline-execution-*` ids
are the pipeline-execution (whole-pipeline) events; stage-level and
action-level ids (`codepipeline-pipeline-stage-execution-*`,
`codepipeline-pipeline-action-execution-*`, manual-approval ids) denote no
pipeline-level lifecycle event. -/
def lifecycleEventOfId : String → Option LifecycleEvent
  | "codepipeline-pipeline-pipeline-execution-succeeded" => some .Succeeded
  | "codepipeline-pipeline-pipeline-execution-failed" => some .Failed
  | _ => none

/-- Lines 335-353: the notification rule `codepipelinebuildStar`.
`pipelineArn` stands for `codePipeline.pipelineArn` (the pipeline object's
identity) and `snsJiraArn` for the parameter-store lookup of
`/cfstack/arn/JIRA_INTEGRATION`, both opaque collaborator values. -/
def codepipelinebuildStar (env : CodebuildOptions)
    (pipelineArn snsJiraArn : String) : CfnNotificationRuleProps :=
  { detailType := "FULL"
    eventTypeIds :=
      ["codepipeline-pipeline-pipeline-execution-succeeded",
       "codepipeline-pipeline-pipeline-execution-failed"]
    name := "bridge-api-" ++ env.ENV ++ "-codepipeline-notification"
    resource := pipelineArn
    targets := [("SNS", snsJiraArn)] }

/-- C7: the notification rule subscribes the sink to exactly the closed set
of whole-pipeline lifecycle events Succeeded and Failed — its event-type
ids are exactly the two pipeline-execution ids, which denote exactly the
events Succeeded and Failed and no stage-level event — it targets the
pipeline object itself (`resource = pipelineArn`), and its single target is
the given sink. -/
theorem lifecycle_events_whole_pipeline (env : CodebuildOptions)
    (pipelineArn snsJiraArn : String) :
    (codepipelinebuildStar env pipelineArn snsJiraArn).eventTypeIds =
      ["codepipeline-pipeline-pipeline-execution-succeeded",
       "codepipeline-pipeline-pipeline-execution-failed"] ∧
    ((codepipelinebuildStar env pipelineArn snsJiraArn).eventTypeIds.map
        lifecycleEventOfId) =
      [some LifecycleEvent.Succeeded, some LifecycleEvent.Failed] ∧
    (codepipelinebuildStar env pipelineArn snsJiraArn).resource =
      pipelineArn ∧
    (codepipelinebuildStar env pipelineArn snsJiraArn).targets =
      [("SNS", snsJiraArn)] := by
  simp [codepipelinebuildStar, lifecycleEventOfId]

/-- Error raised by the Action Binder's stage/kind consistency check. -/
inductive BindError where
  | StageKindMismatchError
deriving DecidableEq, Repr

/-- Modelled from the spec: the semantic role of each stage of the
topology — the action kind its name calls for.  A stage name outside the
four fixed stages has no prescribed role. -/
def stageRole : String → Option ActionKind
  | "Source" => some .Source
  | "Build" => some .Build
  | "Approval" => some .Approval
  | "Deploy" => some .Deploy
  | _ => none

/-- Modelled from the spec: the Action Binder's `attachAction`, whose
implementation (the library `addAction` plus the recommended hardening of
section 4.3) is not under `src/`.  Binding an action whose declared kind is
inconsistent with its containing stage's semantic role fails fast with
`StageKindMismatchError`; a consistent bind appends the action to the
stage. -/
def attachAction (s : BoundStage) (a : ActionSpec) :
    Except BindError BoundStage :=
  match stageRole s.decl.stageName with
  | some k =>
      if a.kind = k then .ok { s with actions := s.actions ++ [a] }
      else .error .StageKindMismatchError
  | none => .ok { s with actions := s.actions ++ [a] }

/-- C5: binding an action whose declared kind differs from its containing
stage's semantic role fails fast with `StageKindMismatchError`. -/
theorem stage_kind_mismatch_fails (s : BoundStage) (a : ActionSpec)
    (k : ActionKind) (hrole : stageRole s.decl.stageName = some k)
    (hne : a.kind ≠ k) :
    attachAction s a = .error BindError.StageKindMismatchError := by
  simp [attachAction, hrole, hne]

/-- Witness for C5 at the spec's scenario: attaching the Deploy-kind action
to the Build stage fails with `StageKindMismatchError`. -/
theorem stage_kind_mismatch_fails_witness :
    attachAction { decl := buildStage, actions := [] } deployActionSpec =
      .error BindError.StageKindMismatchError :=
  stage_kind_mismatch_fails
    { decl := buildStage, actions := [] } deployActionSpec
    ActionKind.Build (by decide) (by decide)

/-- The spec's artifact states: `Empty` until produced, then `Produced` by
exactly one named producer action. -/
inductive ArtifactState where
  | Empty
  | Produced (producer : String)
deriving DecidableEq, Repr

/-- Errors of the Artifact Registry. -/
inductive RegError where
  | ArtifactAlreadyProducedError
  | ArtifactNotReadyError
deriving DecidableEq, Repr

/-- Modelled from the spec: the Artifact Registry — section 4.2's component,
whose implementation (the library `Artifact` machinery) is not under
`src/`.  It maps declared artifact ids to their state; handles are the
ids. -/
structure Registry where
  entries : List (String × ArtifactState)
deriving DecidableEq, Repr

/-- The state of a declared artifact, `none` when the id is undeclared. -/
def Registry.lookup (r : Registry) (id : String) : Option ArtifactState :=
  (r.entries.find? fun e => e.1 == id).map fun e => e.2

/-- Modelled from the spec: `declareArtifact(id) -> handle`, idempotent —
re-declaring an existing id returns the same handle and leaves the registry
(hence the artifact's state) unchanged; a fresh id is registered as
`Empty`. -/
def declareArtifact (r : Registry) (id : String) : Registry × String :=
  match r.lookup id with
  | some _ => (r, id)
  | none => ({ entries := r.entries ++ [(id, .Empty)] }, id)

/-- Modelled from the spec: `markProduced(handle, producer)` — fails with
`ArtifactAlreadyProducedError` when the artifact is already `Produced` by a
different producer; marking by the same producer is a no-op; an `Empty`
declared artifact transitions to `Produced`.  An undeclared id is not a
valid handle and is reported as not ready. -/
def markProduced (r : Registry) (id producer : String) :
    Except RegError Registry :=
  match r.lookup id with
  | some (.Produced p) =>
      if p = producer then .ok r
      else .error .ArtifactAlreadyProducedError
  | some .Empty =>
      .ok { entries := r.entries.map fun e =>
              if e.1 == id then (e.1, .Produced producer) else e }
  | none => .error .ArtifactNotReadyError

/-- Modelled from the spec: `resolveForConsumption(handle) -> handle` —
fails with `ArtifactNotReadyError` when the artifact's state is still
`Empty` at bind time (or the id is undeclared). -/
def resolveForConsumption (r : Registry) (id : String) :
    Except RegError String :=
  match r.lookup id with
  | some (.Produced _) => .ok id
  | _ => .error .ArtifactNotReadyError

/-- Looking up a freshly appended id in a registry that did not hold it
yet finds exactly the appended state. -/
theorem Registry.lookup_append_fresh (r : Registry) (id : String)
    (st : ArtifactState) (h : r.lookup id = none) :
    (Registry.mk (r.entries ++ [(id, st)])).lookup id = some st := by
  unfold Registry.lookup at h ⊢
  rw [Option.map_eq_none'] at h
  rw [List.find?_append, h]
  simp

/-- C6: re-declaring an artifact id is idempotent — it returns the identical
handle and does not reset the registry or the artifact's state; marking an
artifact produced a second time by a different producer fails with
`ArtifactAlreadyProducedError`; and consuming an artifact still `Empty` at
bind time fails with `ArtifactNotReadyError`. -/
theorem artifact_registry_contract (r : Registry) (id p q : String) :
    declareArtifact (declareArtifact r id).1 id = declareArtifact r id ∧
    ((declareArtifact r id).1).lookup id =
      some ((r.lookup id).getD .Empty) ∧
    (declareArtifact r id).2 = id ∧
    (r.lookup id = some (.Produced p) → p ≠ q →
      markProduced r id q = .error RegError.ArtifactAlreadyProducedError) ∧
    (r.lookup id = some .Empty →
      resolveForConsumption r id = .error RegError.ArtifactNotReadyError) := by
  refine ⟨?_, ?_, ?_, ?_, ?_⟩
  · cases h : r.lookup id with
    | some st =>
        simp [declareArtifact, h]
    | none =>
        simp [declareArtifact, h, Registry.lookup_append_fresh r id .Empty h]
  · cases h : r.lookup id with
    | some st => simp [declareArtifact, h]
    | none =>
        simp [declareArtifact, h, Registry.lookup_append_fresh r id .Empty h]
  · cases h : r.lookup id with
    | some st => simp [declareArtifact, h]
    | none => simp [declareArtifact, h]
  · intro hprod hne
    simp [markProduced, hprod, hne]
  · intro hempty
    simp [resolveForConsumption, hempty]

/-- Witness for C6 at concrete registries: `sourceOutput` produced by the
source action in `r1`, and `buildOutput` declared but still `Empty` in the
same registry. -/
theorem artifact_registry_contract_witness :
    (Registry.mk [("sourceOutput", .Produced "src"), ("buildOutput", .Empty)]).lookup
        "sourceOutput" = some (.Produced "src") ∧
    markProduced
        (Registry.mk [("sourceOutput", .Produced "src"), ("buildOutput", .Empty)])
        "sourceOutput" "bld" =
      .error RegError.ArtifactAlreadyProducedError ∧
    resolveForConsumption
        (Registry.mk [("sourceOutput", .Produced "src"), ("buildOutput", .Empty)])
        "buildOutput" =
      .error RegError.ArtifactNotReadyError :=
  ⟨by decide,
   (artifact_registry_contract
      (Registry.mk [("sourceOutput", .Produced "src"), ("buildOutput", .Empty)])
      "sourceOutput" "src" "bld").2.2.2.1 (by decide) (by decide),
   (artifact_registry_contract
      (Registry.mk [("sourceOutput", .Produced "src"), ("buildOutput", .Empty)])
      "buildOutput" "src" "bld").2.2.2.2 (by decide)⟩

/-- One lifecycle subscription: a (topology, sink) pair with its event
set. -/
structure Subscription where
  topology : String
  sink : String
  events : List LifecycleEvent
deriving DecidableEq, Repr

/-- Modelled from the spec: `attachLifecycleNotifier(topology, events,
sink)` of section 4.4, whose implementation (the declarative notification
service behind `CfnNotificationRule`) is not under `src/`.  Subscription is
desired-state: when the (topology, sink) pair already holds a subscription
the call is a no-op, otherwise it records the pair subscribed to the closed
event set Succeeded, Failed.  It never fails. -/
def attachLifecycleNotifier (subs : List Subscription)
    (topology sink : String) : List Subscription :=
  if subs.any fun s => s.topology == topology && s.sink == sink then subs
  else subs ++ [{ topology := topology, sink := sink,
                  events := [.Succeeded, .Failed] }]

/-- C8: notification attachment is idempotent per (topology, sink) pair —
attaching the same pair a second time returns the subscription list
unchanged (no duplicate subscription, and the operation is total, so no
error); on a fresh list the pair ends up subscribed exactly once. -/
theorem notifier_attach_idempotent (subs : List Subscription)
    (topology sink : String) :
    attachLifecycleNotifier (attachLifecycleNotifier subs topology sink)
        topology sink =
      attachLifecycleNotifier subs topology sink ∧
    ((attachLifecycleNotifier (attachLifecycleNotifier [] topology sink)
        topology sink).filter fun s =>
          s.topology == topology && s.sink == sink).length = 1 := by
  constructor
  · by_cases h : subs.any fun s => s.topology == topology && s.sink == sink
    · simp [attachLifecycleNotifier, h]
    · simp [attachLifecycleNotifier, h]
  · simp [attachLifecycleNotifier]

end PipelineStack
